import Mathlib

/-!
Verification of `tdda/referencetest/checkgeopandas.py`: a shallow embedding of
the geodataframe comparison engine (schema check, content check with rounding,
difference sampling, batch driver) and proofs about the claims of the spec.

Modelling conventions:
* A dataframe is a list of named, typed columns; cell values are integers,
  exact rationals (for binary floats), strings, or the missing marker `null`
  (pandas NaN / None).  Binary floating point artefacts are not modelled:
  decimal arithmetic is exact over `Rat`, with round-half-even at ties as in
  numpy.
* Python exceptions are modelled with `Except PyException`; a raised exception
  carries the class name and a description.
* In-place mutation (`sort_values(..., inplace=True)`) is modelled by returning
  the final states of the two caller-owned dataframes from
  `check_geodataframe` alongside the `(failures, msgs)` result.
-/

set_option linter.unusedVariables false

namespace Tdda

/-- The class of a raised Python exception together with its description. -/
structure PyException where
  cls : String
  desc : String
deriving DecidableEq, Repr

/-- Exception raised at line 141 of `checkgeopandas.py`: the expression
`set(list(ref_df))` refers to the name `ref_df`, which is defined nowhere in
the module (the surrounding code uses `ref_gdf`), so Python raises `NameError`
whenever that line is reached. -/
def nameError_ref_df : PyException :=
  ⟨"NameError", "name ref_df is not defined"⟩

/-- Exception raised at line 178 of `checkgeopandas.py`: the call
`self.info("Cannot sort on missing columns")` passes the message string in the
position of the `msgs` argument of `BaseComparison.info(self, msgs, s)` and
supplies no value for `s`, so Python raises `TypeError` before anything is
logged. -/
def typeError_info : PyException :=
  ⟨"TypeError", "info() missing 1 required positional argument"⟩

/-- `TypeError` raised when `GeoPandasNotImplemented.method` is called with no
positional argument for `name`. -/
def typeError_method_arity : PyException :=
  ⟨"TypeError", "method() missing 1 required positional argument"⟩

/-- `KeyError` raised by pandas when a requested column name is absent. -/
def keyError (name : String) : PyException :=
  ⟨"KeyError", name⟩

/-- A cell value: integer, floating point (exact rational), text, or the
missing marker (NaN / None). -/
inductive Value where
  | int (i : Int)
  | float (q : Rat)
  | str (s : String)
  | null
deriving DecidableEq, Repr

/-- Declared element type of a column (pandas dtype). -/
inductive Dtype where
  | int64
  | float64
  | obj
deriving DecidableEq, Repr

/-- Rendering of a dtype, as `str(dtype)` renders it in messages. -/
def dtypeStr : Dtype → String
  | .int64 => "int64"
  | .float64 => "float64"
  | .obj => "object"

/-- A column: a declared dtype and the ordered cell values. -/
structure Column where
  dtype : Dtype
  values : List Value
deriving DecidableEq, Repr

/-- A geodataframe: an ordered sequence of named columns. -/
structure GeoDataFrame where
  cols : List (String × Column)
deriving DecidableEq, Repr

/-- `list(gdf)`: the column names, in order. -/
def GeoDataFrame.columns (g : GeoDataFrame) : List String :=
  g.cols.map Prod.fst

/-- `gdf[c]` as a partial lookup (first column with the given name). -/
def GeoDataFrame.getCol? (g : GeoDataFrame) (n : String) : Option Column :=
  (g.cols.find? (fun p => p.1 == n)).map Prod.snd

/-- Total column lookup with an empty default; used only where the source
guarantees the name is present. -/
def GeoDataFrame.getColD (g : GeoDataFrame) (n : String) : Column :=
  (g.getCol? n).getD ⟨.obj, []⟩

/-- `len(gdf)`: the number of rows (length of the columns). -/
def GeoDataFrame.nrows (g : GeoDataFrame) : Nat :=
  match g.cols with
  | [] => 0
  | p :: _ => p.2.values.length

/-- `gdf[names]`: projection to the named columns, raising `KeyError` on the
first absent name, as pandas does. -/
def GeoDataFrame.project (g : GeoDataFrame) (names : List String) :
    Except PyException GeoDataFrame := do
  let cols ← names.mapM (fun n =>
    match g.getCol? n with
    | some c => Except.ok (n, c)
    | none => Except.error (keyError n))
  Except.ok ⟨cols⟩

/-- `gpd.isnull(v)`: the missing-value test. -/
def isnull : Value → Bool
  | .null => true
  | _ => false

/-- Equality of two rationals, decided on the (always reduced) numerator and
denominator fields. -/
def ratEqB (a b : Rat) : Bool :=
  a.num == b.num && a.den == b.den

/-- Equality of an integer and a rational: the reduced rational must have
denominator one and that integer as numerator. -/
def intEqRat (a : Int) (b : Rat) : Bool :=
  b.den == 1 && b.num == a

/-- Python `==` on cell values: numbers compare across int/float by value,
`NaN == x` is `False` for every `x` (including `NaN`), and values of
unrelated kinds are unequal. -/
def pyEq : Value → Value → Bool
  | .int a, .int b => a == b
  | .int a, .float b => intEqRat a b
  | .float a, .int b => intEqRat b a
  | .float a, .float b => ratEqB a b
  | .str a, .str b => a == b
  | _, _ => false

/-- Null-aware equality of two cells: equal by Python `==`, or both missing.
This is the complement of the divergence test
`val != refval and not (isnull(val) and isnull(refval))` used by
`differences`. -/
def valEqNaN (a b : Value) : Bool :=
  pyEq a b || (isnull a && isnull b)

/-- `Series.equals`: same dtype, same length, and cells pairwise equal with
missing values treated as equal to each other. -/
def seriesEquals (a b : Column) : Bool :=
  a.dtype == b.dtype && a.values.length == b.values.length &&
    (a.values.zip b.values).all (fun p => valEqNaN p.1 p.2)

/-- `DataFrame.equals`: same column names in order and all columns equal. -/
def gdfEquals (a b : GeoDataFrame) : Bool :=
  a.cols.length == b.cols.length &&
    (a.cols.zip b.cols).all (fun p => p.1.1 == p.2.1 && seriesEquals p.1.2 p.2.2)

/-- Round the fraction `a / b` (with `b > 0`) to the nearest integer, ties to
even (numpy rounding): `f` is the floor, and the doubled remainder decides
between `f`, `f + 1`, and the even neighbour at an exact half. -/
def roundHalfEvenFrac (a b : Int) : Int :=
  let f := Int.fdiv a b
  let r2 := 2 * (a - f * b)
  if r2 < b then f
  else if b < r2 then f + 1
  else if f % 2 = 0 then f else f + 1

/-- The scaling `q * 10 ^ p` rounded to the nearest integer, ties to even,
computed on the numerator and denominator directly. -/
def scaledRound (p : Nat) (q : Rat) : Int :=
  roundHalfEvenFrac (q.num * ((10 ^ p : Nat) : Int)) ((q.den : Nat) : Int)

/-- Round to `p` decimal places, ties to even. -/
def round10 (p : Nat) (q : Rat) : Rat :=
  mkRat (scaledRound p q) (10 ^ p)

/-- Rounding of a single cell: only floating point cells are affected. -/
def roundVal (p : Nat) : Value → Value
  | .float q => .float (round10 p q)
  | v => v

/-- `DataFrame.round(p)`: rounds the floating point columns, leaves integer
and text columns unchanged. -/
def round_gdf (p : Nat) (g : GeoDataFrame) : GeoDataFrame :=
  ⟨g.cols.map (fun pr =>
    (pr.1, if pr.2.dtype == Dtype.float64
           then { dtype := pr.2.dtype, values := pr.2.values.map (roundVal p) }
           else pr.2))⟩

/-- A comparison option flag, as accepted by `check_geodataframe`:
`None`, `True`, `False`, an explicit list of field names, or a function
computing the field names from a geodataframe. -/
inductive OptionFlag where
  | none
  | true
  | false
  | list (fields : List String)
  | func (f : GeoDataFrame → List String)

/-- `resolve_option_flag(flag, gdf)` from `checkgeopandas.py`:
`None`/`True` resolve to all columns, `False` to no columns, a list to
itself, and a callable is applied to the geodataframe. -/
def resolve_option_flag : OptionFlag → GeoDataFrame → List String
  | .none, gdf => gdf.columns
  | .true, gdf => gdf.columns
  | .false, _ => []
  | .list fields, _ => fields
  | .func f, gdf => f gdf

/-- Python truthiness of a flag value, as tested by `if sortby:` and
`if check_order != False:` sites: `None`/`False`/empty list are falsy,
`True`/non-empty list/function objects are truthy. -/
def flagTruthy : OptionFlag → Bool
  | .none => Bool.false
  | .false => Bool.false
  | .true => Bool.true
  | .list fields => !fields.isEmpty
  | .func _ => Bool.true

/-- Whether the flag is the literal `False` (the test `check_order != False`). -/
def isFalseFlag : OptionFlag → Bool
  | .false => Bool.true
  | _ => Bool.false

/-- Three-way comparison of integers. -/
def intCmp (x y : Int) : Ordering :=
  if x < y then .lt else if x = y then .eq else .gt

/-- Three-way lexicographic comparison of strings. -/
def strCmp (x y : String) : Ordering :=
  if x < y then .lt else if x = y then .eq else .gt

/-- Comparison of two cells used as sort keys (numpy ascending order with
missing values last, mirroring `sort_values` with `na_position=last`);
strings are ordered lexicographically.  Mixed number/string keys do not occur
in well-typed columns; they are ordered numbers-first here. -/
def valueCmp : Value → Value → Ordering
  | .null, .null => .eq
  | .null, _ => .gt
  | _, .null => .lt
  | .int x, .int y => intCmp x y
  | .int x, .float y => intCmp (x * ((y.den : Nat) : Int)) y.num
  | .float x, .int y => intCmp x.num (y * ((x.den : Nat) : Int))
  | .float x, .float y => intCmp (x.num * ((y.den : Nat) : Int)) (y.num * ((x.den : Nat) : Int))
  | .str x, .str y => strCmp x y
  | .str _, _ => .gt
  | _, .str _ => .lt

/-- Lexicographic comparison of multi-field sort keys. -/
def keyCmp : List Value → List Value → Ordering
  | [], [] => .eq
  | [], _ :: _ => .lt
  | _ :: _, [] => .gt
  | a :: as, b :: bs =>
    match valueCmp a b with
    | .eq => keyCmp as bs
    | o => o

/-- Insert an index into a sorted run, before the first entry it is `le` to;
processing the original order front to back makes the overall sort stable. -/
def orderedInsertIdx (le : Nat → Nat → Bool) (x : Nat) : List Nat → List Nat
  | [] => [x]
  | y :: ys => if le x y then x :: y :: ys else y :: orderedInsertIdx le x ys

/-- Stable insertion sort of row indices. -/
def insertionSortIdx (le : Nat → Nat → Bool) : List Nat → List Nat
  | [] => []
  | x :: xs => orderedInsertIdx le x (insertionSortIdx le xs)

/-- `gdf.sort_values(fields, inplace=True)`: stable sort of the rows by the
given fields, ascending, tie-broken left to right; raises `KeyError` if a
field is absent.  Multi-key `sort_values` uses numpy `lexsort`, which is
stable; the stable sort is modelled by insertion sort on the row indices. -/
def sort_values (g : GeoDataFrame) (fields : List String) :
    Except PyException GeoDataFrame :=
  match fields.find? (fun f => !(g.columns.contains f)) with
  | some f => .error (keyError f)
  | Option.none =>
    let key := fun (i : Nat) => fields.map (fun f => (g.getColD f).values.getD i Value.null)
    let perm := insertionSortIdx (fun i j => keyCmp (key i) (key j) != Ordering.gt)
      (List.range g.nrows)
    .ok ⟨g.cols.map (fun p =>
      (p.1, { dtype := p.2.dtype, values := perm.map (fun i => p.2.values.getD i Value.null) }))⟩

/-- `gdf[condition(gdf)]`: keep the rows selected by the boolean mask.
The trailing no-argument `.reindex()` of the source leaves the frame
unchanged. -/
def filterRows (g : GeoDataFrame) (mask : List Bool) : GeoDataFrame :=
  ⟨g.cols.map (fun p =>
    (p.1, { dtype := p.2.dtype,
            values := (p.2.values.zip mask).filterMap
              (fun vb => if vb.2 then some vb.1 else Option.none) }))⟩

/-- The filter step: apply the condition to each frame when one is given. -/
def applyCondition (condition : Option (GeoDataFrame → List Bool))
    (g : GeoDataFrame) : GeoDataFrame :=
  match condition with
  | Option.none => g
  | some f => filterRows g (f g)

/-- Modelled from the spec: a `Diffs` object (`basecomparison.py` is not part
of the sources) is an ordered, append-only log of message strings. -/
abbrev Diffs := List String

/-- Modelled from the spec: `BaseComparison.info(msgs, s)` appends the message
to the log. -/
def info (msgs : Diffs) (s : String) : Diffs :=
  msgs ++ [s]

/-- Modelled from the spec: `os.path.normpath` is external path normalisation;
it is modelled as the identity on the (already normal) path strings used
here. -/
def normpath (s : String) : String := s

/-- Modelled from the spec: `BaseComparison.compare_with` (not in the sources)
renders the hint line naming the two files to inspect manually. -/
def compare_with (a e : String) : String :=
  "Compare with: " ++ a ++ " " ++ e

/-- `GeoPandasComparison.failure(msgs, s, actual_path, expected_path)`:
append the file information lines, then the failure message. -/
def failure_msgs (s : String) (actual_path expected_path : Option String) :
    List String :=
  (match actual_path, expected_path with
   | some a, some e => [compare_with (normpath a) e]
   | Option.none, some e => ["Expected file " ++ e]
   | some a, Option.none => ["Actual file " ++ normpath a]
   | Option.none, Option.none => []) ++ [s]

/-- Python `repr` of a list of strings, as interpolated by `"%s" % names`. -/
def pyReprStrList (names : List String) : String :=
  "[" ++ String.intercalate ", " (names.map (fun s => "\x27" ++ s ++ "\x27")) ++ "]"

/-- Lines 133-137: walk the resolved `check_types` names; a name absent from
the actual frame is recorded as missing, otherwise differing dtypes are
recorded as wrong types.  Looking up a name that is absent from the expected
frame (possible when an explicit list was supplied) raises `KeyError`. -/
def missing_wrong_types (gdf ref_gdf : GeoDataFrame) (cts : List String) :
    Except PyException (List String × List (String × Dtype × Dtype)) :=
  cts.foldlM
    (fun acc c =>
      match gdf.getCol? c with
      | Option.none => Except.ok (acc.1 ++ [c], acc.2)
      | some col =>
        match ref_gdf.getCol? c with
        | Option.none => Except.error (keyError c)
        | some refcol =>
          if col.dtype != refcol.dtype
          then Except.ok (acc.1, acc.2 ++ [(c, col.dtype, refcol.dtype)])
          else Except.ok acc)
    ([], [])

/-- Lines 165-172: explanation loop for a wrong ordering, over the column
lists restricted to the resolved `check_types` set; reports the first
positional mismatch, a length shortfall, or the defensive fallback text when
the walked prefix agrees. -/
def orderExplanation : List String → List String → String
  | [], _ => "mysterious difference, they appear to be the same!"
  | _ :: _, [] => "not enough columns"
  | a :: as, b :: bs =>
    if a != b then "found " ++ a ++ ", expected " ++ b
    else orderExplanation as bs

/-- Lines 142-146: the wrong-ordering axis.  Computed only when `check_order`
is not the literal `False` and no column is missing; the resolved
`check_order` set restricts both column lists, which are then compared as
lists. -/
def wrong_ordering_check (gdf ref_gdf : GeoDataFrame) (check_order : OptionFlag)
    (missing_cols : List String) : Bool :=
  if isFalseFlag check_order || !missing_cols.isEmpty then Bool.false
  else
    let co := resolve_option_flag check_order ref_gdf
    let c1 := gdf.columns.filter (fun c => co.contains c)
    let c2 := ref_gdf.columns.filter (fun c => co.contains c)
    c1 != c2

/-- Lines 149-173: the message block emitted when the column check failed.
`extra_cols` is always empty in a completing run (line 141 raises before it
can be assigned), but the branch is kept as in the source. -/
def schema_messages (gdf ref_gdf : GeoDataFrame) (cts missing_cols extra_cols : List String)
    (wrong_types : List (String × Dtype × Dtype)) (wrong_ordering : Bool)
    (actual_path expected_path : Option String) : List String :=
  if missing_cols.isEmpty && extra_cols.isEmpty && wrong_types.isEmpty && !wrong_ordering
  then []
  else
    failure_msgs "Column check failed." actual_path expected_path
    ++ (if !missing_cols.isEmpty then ["Missing columns: " ++ pyReprStrList missing_cols] else [])
    ++ (if !extra_cols.isEmpty then ["Extra columns: " ++ pyReprStrList extra_cols] else [])
    ++ wrong_types.map (fun t =>
         "Wrong column type " ++ t.1 ++ " (" ++ dtypeStr t.2.1 ++ ", expected " ++ dtypeStr t.2.2 ++ ")")
    ++ (if wrong_ordering
        then ["Wrong column ordering: "
              ++ orderExplanation (gdf.columns.filter (fun c => cts.contains c))
                                  (ref_gdf.columns.filter (fun c => cts.contains c))]
        else [])

/-- The scan of `differences` (lines 223-233): index of the first row where
the two columns diverge under the null-aware rule. -/
def firstDiffIndex (values ref_values : List Value) : Option Nat :=
  (values.zip ref_values).findIdx? (fun p => !valEqNaN p.1 p.2)

/-- `ndifferences(values1, values2, start, limit=10)`: the first row in the
window `[start, min(start+limit, len))` where the columns agree again, or the
end of the window. -/
def ndifferences (values1 values2 : List Value) (start : Nat) (limit : Nat) : Nat :=
  let stop := min (start + limit) values1.length
  match (List.range' start (stop - start)).find?
      (fun i => valEqNaN (values1.getD i Value.null) (values2.getD i Value.null)) with
  | some i => i
  | Option.none => stop

/-- `sample(values, start, stop)`: the cells of the window, with missing
values replaced by `None`. -/
def sample (values : List Value) (start stop : Nat) : List Value :=
  (List.range' start (stop - start)).map (fun i =>
    let v := values.getD i Value.null
    if isnull v then Value.null else v)

/-- `"%.*f" % (p, q)`: fixed-point rendering with exactly `p` digits after
the decimal point (no point at all when `p = 0`). -/
def formatFixed (p : Nat) (q : Rat) : String :=
  let scaled := scaledRound p q
  let sign := if scaled < 0 then "-" else ""
  let a := scaled.natAbs
  let fracDigits := Nat.toDigits 10 (a % 10 ^ p)
  if p = 0 then sign ++ toString (a / 10 ^ p)
  else sign ++ toString (a / 10 ^ p) ++ "."
       ++ String.mk (List.replicate (p - fracDigits.length) '0') ++ String.mk fracDigits

/-- The per-cell rendering of `sample_format` (lines 246-259): missing cells
render as `null`, integers without a decimal point, floats with `precision`
digits, and strings quoted when the column dtype is `object`. -/
def formatValue (dtype : Dtype) (precision : Nat) : Value → String
  | .null => "null"
  | .int i => toString i
  | .float q => formatFixed precision q
  | .str s => if dtype == Dtype.obj then "\"" ++ s ++ "\"" else s

/-- `sample_format(values, start, stop, precision)`: comma-joined rendering of
the window.  The trailing branch appends " ..." when the sample is shorter
than the window, exactly as in the source (lines 260-261). -/
def sample_format (values : Column) (start stop precision : Nat) : String :=
  let s := sample values.values start stop
  let r := String.intercalate ", " (s.map (formatValue values.dtype precision))
  if s.length < stop - start then r ++ " ..." else r

/-- `differences(name, values, ref_values, precision)`: locate the first
divergent row and render the bounded divergent run from both columns, or
fall back to the type/identity diagnostics. -/
def differences (name : String) (values ref_values : Column) (precision : Nat) : String :=
  match firstDiffIndex values.values ref_values.values with
  | some i =>
    let stop := ndifferences values.values ref_values.values i 10
    "From row " ++ toString (i + 1) ++ ": ["
      ++ sample_format values i stop precision ++ "] != ["
      ++ sample_format ref_values i stop precision ++ "]"
  | Option.none =>
    if values.dtype != ref_values.dtype then "Different types"
    else "But mysteriously appear to be identical!"

/-- Lines 175-181: the sort step.  Returns the post-step states of the two
caller-owned frames together with the exception, if one was raised: when a
sort field is a missing column the one-argument `self.info(...)` call raises
`TypeError` (see `typeError_info`); otherwise both frames are sorted in
place, and a `KeyError` from the second sort leaves the first frame already
mutated. -/
def sort_step (gdf ref_gdf : GeoDataFrame) (sortby : OptionFlag)
    (missing_cols : List String) :
    GeoDataFrame × GeoDataFrame × Option PyException :=
  if !flagTruthy sortby then (gdf, ref_gdf, Option.none)
  else
    let sf := resolve_option_flag sortby ref_gdf
    if missing_cols.any (fun c => sf.contains c) then
      (gdf, ref_gdf, some typeError_info)
    else
      match sort_values gdf sf with
      | .error e => (gdf, ref_gdf, some e)
      | .ok g =>
        match sort_values ref_gdf sf with
        | .error e => (g, ref_gdf, some e)
        | .ok r => (g, r, Option.none)

/-- Lines 208-214: one pair of messages per differing column of the rounded
projections, in expected-frame column order. -/
def column_diff_msgs (rounded ref_rounded : GeoDataFrame) (precision : Nat) : List String :=
  (ref_rounded.cols.map Prod.fst).foldr
    (fun c acc =>
      (if !seriesEquals (rounded.getColD c) (ref_rounded.getColD c)
       then ["Column values differ: " ++ c,
             differences c (rounded.getColD c) (ref_rounded.getColD c) precision]
       else []) ++ acc)
    []

/-- Lines 187-214: the length check and, when it passes, the value content
check on the rounded projections.  Returns the running `same` flag, the
emitted messages, and a `KeyError` when a projection name is absent. -/
def content_step (g r : GeoDataFrame) (check_data : OptionFlag)
    (missing_cols : List String) (precision : Nat)
    (actual_path expected_path : Option String) :
    Bool × List String × Option PyException :=
  if g.nrows != r.nrows then
    (Bool.false,
     failure_msgs "Length check failed." actual_path expected_path
       ++ ["Found " ++ toString g.nrows ++ " records, expected " ++ toString r.nrows],
     Option.none)
  else
    let cd0 := resolve_option_flag check_data r
    if cd0.isEmpty then (Bool.true, [], Option.none)
    else
      let cd := cd0.filter (fun c => !missing_cols.contains c)
      match g.project cd with
      | .error e => (Bool.true, [], some e)
      | .ok pg =>
        match r.project cd with
        | .error e => (Bool.true, [], some e)
        | .ok pr =>
          let rounded := round_gdf precision pg
          let ref_rounded := round_gdf precision pr
          if gdfEquals rounded ref_rounded then (Bool.true, [], Option.none)
          else
            (Bool.false,
             failure_msgs "Contents check failed." actual_path expected_path
               ++ column_diff_msgs rounded ref_rounded precision,
             Option.none)

instance {ε α : Type} [DecidableEq ε] [DecidableEq α] : DecidableEq (Except ε α)
  | .ok a, .ok b =>
    if h : a = b then isTrue (by rw [h]) else isFalse (by simp [h])
  | .ok _, .error _ => isFalse (by simp)
  | .error _, .ok _ => isFalse (by simp)
  | .error a, .error b =>
    if h : a = b then isTrue (by rw [h]) else isFalse (by simp [h])

/-- The observable outcome of one `check_geodataframe` call: the final state
of the message log, the final states of the two caller-owned frames (the
in-place sort mutates them), and either the returned failure count or the
exception that escaped the call. -/
structure GdfOutcome where
  msgs : List String
  gdfFinal : GeoDataFrame
  refFinal : GeoDataFrame
  result : Except PyException Nat
deriving DecidableEq, Repr

/-- `GeoPandasComparison.check_geodataframe` (lines 53-217), assembled from
the step functions above.  `precision` defaults to 6; `check_types` resolves
against the expected frame and `check_extra_cols` against the actual frame;
a non-empty resolved `check_extra_cols` reaches line 141, whose `ref_df` is
an undefined name, so the call raises `NameError` there. -/
def check_geodataframe (gdf ref_gdf : GeoDataFrame)
    (actual_path expected_path : Option String)
    (check_data check_types check_order check_extra_cols sortby : OptionFlag)
    (condition : Option (GeoDataFrame → List Bool))
    (precision : Option Nat)
    (msgs0 : List String) : GdfOutcome :=
  let prec := precision.getD 6
  let cts := resolve_option_flag check_types ref_gdf
  let cec := resolve_option_flag check_extra_cols gdf
  match missing_wrong_types gdf ref_gdf cts with
  | .error e => ⟨msgs0, gdf, ref_gdf, .error e⟩
  | .ok (missing_cols, wrong_types) =>
    if !cec.isEmpty then ⟨msgs0, gdf, ref_gdf, .error nameError_ref_df⟩
    else
      let wrong_ordering := wrong_ordering_check gdf ref_gdf check_order missing_cols
      let msgs1 := msgs0 ++ schema_messages gdf ref_gdf cts missing_cols [] wrong_types
                             wrong_ordering actual_path expected_path
      match sort_step gdf ref_gdf sortby missing_cols with
      | (g1, r1, some e) => ⟨msgs1, g1, r1, .error e⟩
      | (g1, r1, Option.none) =>
        let g2 := applyCondition condition g1
        let r2 := applyCondition condition r1
        match content_step g2 r2 check_data missing_cols prec actual_path expected_path with
        | (contentSame, cmsgs, some e) => ⟨msgs1 ++ cmsgs, g1, r1, .error e⟩
        | (contentSame, cmsgs, Option.none) =>
          let same := contentSame && missing_cols.isEmpty && wrong_types.isEmpty && !wrong_ordering
          ⟨msgs1 ++ cmsgs, g1, r1, .ok (if same then 0 else 1)⟩

/-- `GeoPandasComparison.check_parquet_file` (lines 273-322): load the
expected then the actual frame through the loader (an exception from either
propagates with the log untouched) and run `check_geodataframe` on them with
the file paths attached.  `check_extra_cols` is not a parameter and is left
at its default.  The `precision` parameter defaults to 6 there, which
coincides with `check_geodataframe`'s own default.  Loading is file input,
so the loader is the explicit parameter it already is in the source.
Returns the final log and either the failure count or the exception. -/
def check_parquet_file (loader : String → Except PyException GeoDataFrame)
    (actual_path expected_path : String)
    (check_data check_types check_order sortby : OptionFlag)
    (condition : Option (GeoDataFrame → List Bool))
    (precision : Option Nat) (msgs : List String) :
    List String × Except PyException Nat :=
  match loader expected_path with
  | .error e => (msgs, .error e)
  | .ok ref_gdf =>
    match loader actual_path with
    | .error e => (msgs, .error e)
    | .ok gdf =>
      let o := check_geodataframe gdf ref_gdf (some actual_path) (some expected_path)
        check_data check_types check_order OptionFlag.none sortby condition precision msgs
      (o.msgs, o.result)

/-- The message recorded by the batch driver when a pair raises (lines
388-397). -/
def batch_error_msg (actual_path expected_path : String) (e : PyException) : String :=
  "Error comparing " ++ normpath actual_path ++ " and " ++ expected_path
    ++ " (" ++ e.cls ++ " " ++ e.desc ++ ")"

/-- `GeoPandasComparison.check_parquet_files` (lines 324-399): fold over the
zipped path lists; a pair that raises is caught, contributes one failure and
one error message, and iteration continues; a pair that completes contributes
its failure count and its appended messages. -/
def check_parquet_files (loader : String → Except PyException GeoDataFrame)
    (actual_paths expected_paths : List String)
    (check_data check_types check_order sortby : OptionFlag)
    (condition : Option (GeoDataFrame → List Bool))
    (msgs0 : List String) : Nat × List String :=
  (actual_paths.zip expected_paths).foldl
    (fun acc p =>
      match check_parquet_file loader p.1 p.2 check_data check_types check_order
          sortby condition Option.none acc.2 with
      | (msgs1, .ok n) => (acc.1 + n, msgs1)
      | (msgs1, .error e) => (acc.1 + 1, msgs1 ++ [batch_error_msg p.1 p.2 e]))
    (0, msgs0)

/-- The failure count one pair contributes to the batch total: its returned
count when it completes, one when it raises. -/
def pair_failures (loader : String → Except PyException GeoDataFrame)
    (check_data check_types check_order sortby : OptionFlag)
    (condition : Option (GeoDataFrame → List Bool))
    (p : String × String) : Nat :=
  match (check_parquet_file loader p.1 p.2 check_data check_types check_order
      sortby condition Option.none []).2 with
  | .ok n => n
  | .error _ => 1

/-- The block of messages one pair contributes to the shared log: the
messages its comparison appended, followed by the batch error message when
it raised. -/
def pair_msgs (loader : String → Except PyException GeoDataFrame)
    (check_data check_types check_order sortby : OptionFlag)
    (condition : Option (GeoDataFrame → List Bool))
    (p : String × String) : List String :=
  match check_parquet_file loader p.1 p.2 check_data check_types check_order
      sortby condition Option.none [] with
  | (m, .ok _) => m
  | (m, .error e) => m ++ [batch_error_msg p.1 p.2 e]

/-- An instance returned by `GeoPandasComparison.__new__` (lines 48-51):
the real comparison object when geopandas imported, the null implementation
otherwise. -/
inductive GeoPandasInstance where
  | comparison
  | notImplemented
deriving DecidableEq, Repr

/-- `GeoPandasComparison.__new__`: constructing the comparison class yields a
`GeoPandasNotImplemented` instance when geopandas is unavailable. -/
def GeoPandasComparison_new (gpd_available : Bool) : GeoPandasInstance :=
  if gpd_available then .comparison else .notImplemented

/-- The class-own attribute names of `GeoPandasNotImplemented`: the two
methods defined at lines 36-40, together with the entries Python places in
the namespace of a class with a docstring (`__module__`, `__qualname__`,
`__doc__`) and the descriptors every non-slots class gets (`__dict__`,
`__weakref__`).  Normal attribute lookup finds these — and the attributes
inherited from `object` — without consulting `__getattr__`. -/
def notimpl_class_attrs : List String :=
  ["__getattr__", "method", "__module__", "__qualname__", "__doc__",
   "__dict__", "__weakref__"]

/-- What looking up an attribute on a `GeoPandasNotImplemented` instance
yields: an attribute found by normal lookup (its value is not modelled
further, except for `method`, whose call behaviour is
`notimpl_method_call`), or the forwarding lambda that `__getattr__` returns
for every name normal lookup does not find. -/
inductive NotImplAttr where
  | classOwn
  | forwarding (name : String)
deriving DecidableEq, Repr

/-- Python attribute lookup on a `GeoPandasNotImplemented` instance.
`objAttr` says which further names are inherited from `object` (that set
lives in the Python runtime, outside this module, so it is a parameter).
A name found by normal lookup — class-own or inherited — yields the
attribute itself; only the remaining names reach `__getattr__` (line 36),
which returns the lambda forwarding to `method(name, *args)`. -/
def notimpl_getattr (objAttr : String → Bool) (name : String) : NotImplAttr :=
  if notimpl_class_attrs.contains name || objAttr name then .classOwn
  else .forwarding name

/-- Calling the forwarding lambda returned by `__getattr__` (lines 37-40):
it calls `self.method(name, *args)`, which always raises
`NotImplementedError` naming the attempted method; the arguments are
discarded. -/
def notimpl_lambda_call (name : String) (args : List String) : PyException :=
  ⟨"NotImplementedError", name ++ ": GeoPandas not available."⟩

/-- Calling the class-own helper `method` directly (it is found by normal
lookup, so the forwarding lambda is not involved): with a first positional
argument it raises `NotImplementedError` naming that argument; with none,
Python raises `TypeError` for the missing `name` parameter. -/
def notimpl_method_call (args : List String) : PyException :=
  match args with
  | [] => typeError_method_arity
  | a :: _ => ⟨"NotImplementedError", a ++ ": GeoPandas not available."⟩

/-- `check_geodataframe` with every optional argument at its Python default
(`None` paths and flags, no condition, no precision, fresh log). -/
def check_geodataframe_default (gdf ref_gdf : GeoDataFrame) : GdfOutcome :=
  check_geodataframe gdf ref_gdf Option.none Option.none OptionFlag.none OptionFlag.none
    OptionFlag.none OptionFlag.none OptionFlag.none Option.none Option.none []

/-- An integer column. -/
def mkIntCol (xs : List Int) : Column :=
  ⟨.int64, xs.map Value.int⟩

/-- A floating point column. -/
def mkFloatCol (xs : List Rat) : Column :=
  ⟨.float64, xs.map Value.float⟩

/-- The actual frame of the repository test `test_frames_ok`. -/
def df1 : GeoDataFrame :=
  ⟨[("a", mkIntCol [1, 2, 3, 4, 5]),
    ("b", mkFloatCol ([10001, 20001, 30001, 40001, 50001].map (fun n => mkRat n 10000)))]⟩

/-- The expected frame of the repository test `test_frames_fail`: identical to
`df1` except that column `b` differs from the fourth decimal digit on. -/
def df2 : GeoDataFrame :=
  ⟨[("a", mkIntCol [1, 2, 3, 4, 5]),
    ("b", mkFloatCol ([10002, 20002, 30002, 40002, 50002].map (fun n => mkRat n 10000)))]⟩

/-- A two-row frame whose single integer column is out of order. -/
def dfU : GeoDataFrame := ⟨[("a", mkIntCol [2, 1])]⟩

/-- `dfU` after sorting on `a`. -/
def dfUs : GeoDataFrame := ⟨[("a", mkIntCol [1, 2])]⟩

/-- One-column actual frame, used where column `b` is missing. -/
def dfS1 : GeoDataFrame := ⟨[("a", mkIntCol [1])]⟩

/-- Two-column expected frame for the missing-column scenarios. -/
def dfS2 : GeoDataFrame := ⟨[("a", mkIntCol [1]), ("b", mkIntCol [2])]⟩

/-- Actual frame with columns `a, b` in this order. -/
def dfO1 : GeoDataFrame := ⟨[("a", mkIntCol [1]), ("b", mkIntCol [2])]⟩

/-- Expected frame with the same columns in the order `b, a`. -/
def dfO2 : GeoDataFrame := ⟨[("b", mkIntCol [2]), ("a", mkIntCol [1])]⟩

/-- Actual frame with one extra column `b` relative to `dfE2`, with identical
values on the shared column. -/
def dfE1 : GeoDataFrame := ⟨[("a", mkIntCol [1]), ("b", mkIntCol [2])]⟩

/-- Expected frame with only column `a`. -/
def dfE2 : GeoDataFrame := ⟨[("a", mkIntCol [1])]⟩

/-- A 16-row integer column: values `0, 1, ..., 15`. -/
def c16a : Column := ⟨.int64, (List.range 16).map (fun i => Value.int i)⟩

/-- A 16-row integer column differing from `c16a` at rows 0 to 14 and equal
to it at row 15. -/
def c16b : Column :=
  ⟨.int64, ((List.range 15).map (fun i => Value.int (i + 100))) ++ [Value.int 15]⟩

/-- A one-row integer column holding `1`. -/
def colW1 : Column := ⟨.int64, [Value.int 1]⟩

/-- A one-row integer column holding `2`. -/
def colW2 : Column := ⟨.int64, [Value.int 2]⟩

/-- A loader for which every path is unreadable. -/
def loaderW : String → Except PyException GeoDataFrame :=
  fun _ => .error ⟨"OSError", "unreadable file"⟩

/-- C1: the claim says `compare(D, D)` with all flags at their defaults
returns `(0, [])`.  The code cannot do so for any frame with at least one
column: the default `check_extra_cols` resolves to all columns of the actual
frame, which drives execution into line 141, where the undefined name
`ref_df` raises `NameError`.  The repository's own test `test_frames_ok`
expects `(0, [])` here, so this is a code bug; with the extra-column check
disabled the identity comparison does return `(0, [])`. -/
theorem C1_identity_default_raises :
    (check_geodataframe_default df1 df1).result = .error nameError_ref_df ∧
    (check_geodataframe df1 df1 Option.none Option.none OptionFlag.none OptionFlag.none
        OptionFlag.none OptionFlag.false OptionFlag.none Option.none Option.none []).result
      = .ok 0 ∧
    (check_geodataframe df1 df1 Option.none Option.none OptionFlag.none OptionFlag.none
        OptionFlag.none OptionFlag.false OptionFlag.none Option.none Option.none []).msgs
      = [] := by
  refine ⟨?_, ?_, ?_⟩ <;> decide

/-- C2: the claim says the extra-column set is recorded and the call
completes for every `check_extra_cols` flag.  When the resolved flag is
non-empty (here the default, resolving to both columns of the actual frame),
line 141 evaluates `set(list(ref_df))` and raises `NameError` instead: the
extra columns are never recorded and the call never completes.  Only an
empty resolved flag (which makes the recorded set trivially empty) avoids
the raise. -/
theorem C2_extra_cols_raises :
    resolve_option_flag OptionFlag.none dfE1 = ["a", "b"] ∧
    (check_geodataframe_default dfE1 dfE2).result = .error nameError_ref_df := by
  constructor <;> decide

/-- C3: precision defaults to 6 and floats are rounded before comparison, but
the claimed `(0, [])` / `(1, ...)` results are unreachable with default flags:
the default `check_extra_cols` drives the call into the line-141 `NameError`
before any value comparison.  With the extra-column check disabled the
claimed boundary behaviour does hold for the frames differing from the
fourth decimal digit on: precision 3 yields `(0, [])`, precision 4 and the
(default) 6 yield failure with the rounded run rendered at that precision. -/
theorem C3_precision_boundary :
    (check_geodataframe_default df1 df2).result = .error nameError_ref_df ∧
    (check_geodataframe df1 df2 Option.none Option.none OptionFlag.none OptionFlag.none
        OptionFlag.none OptionFlag.false OptionFlag.none Option.none (some 3) []).result
      = .ok 0 ∧
    (check_geodataframe df1 df2 Option.none Option.none OptionFlag.none OptionFlag.none
        OptionFlag.none OptionFlag.false OptionFlag.none Option.none (some 3) []).msgs
      = [] ∧
    (check_geodataframe df1 df2 Option.none Option.none OptionFlag.none OptionFlag.none
        OptionFlag.none OptionFlag.false OptionFlag.none Option.none (some 4) []).result
      = .ok 1 ∧
    (check_geodataframe df1 df2 Option.none Option.none OptionFlag.none OptionFlag.none
        OptionFlag.none OptionFlag.false OptionFlag.none Option.none (some 6) []).result
      = .ok 1 ∧
    (check_geodataframe df1 df2 Option.none Option.none OptionFlag.none OptionFlag.none
        OptionFlag.none OptionFlag.false OptionFlag.none Option.none (some 6) []).msgs
      = ["Contents check failed.", "Column values differ: b",
         "From row 1: [1.000100, 2.000100, 3.000100, 4.000100, 5.000100] != [1.000200, 2.000200, 3.000200, 4.000200, 5.000200]"] := by
  refine ⟨?_, ?_, ?_, ?_, ?_, ?_⟩ <;> decide

/-- C6: the claim says a dataset with identical values but one extra column
fails overall with count 1.  Detecting an extra column requires a non-empty
resolved `check_extra_cols`, which always raises the line-141 `NameError`, so
the scenario cannot return at all; disabling the extra-column check makes
the same pair pass with `(0, [])`.  The claimed failure is therefore
unobservable on this code. -/
theorem C6_extra_column_verdict_unreachable :
    (check_geodataframe_default dfE1 dfE2).result = .error nameError_ref_df ∧
    (check_geodataframe dfE1 dfE2 Option.none Option.none OptionFlag.none OptionFlag.none
        OptionFlag.none OptionFlag.false OptionFlag.none Option.none Option.none []).result
      = .ok 0 := by
  constructor <;> decide

/-- C8: the claim says that when a sort field is a missing column, sorting is
skipped, a diagnostic is logged, and the comparison completes.  The code
calls `self.info("Cannot sort on missing columns")` with the message in the
position of the `msgs` argument, so Python raises `TypeError` there: nothing
is logged by that call and the comparison never completes.  (The log already
holds the schema-phase messages recording the missing column.) -/
theorem C8_missing_sort_col_raises :
    (check_geodataframe dfS1 dfS2 Option.none Option.none OptionFlag.none OptionFlag.none
        OptionFlag.none OptionFlag.false (OptionFlag.list ["b"]) Option.none Option.none []).result
      = .error typeError_info ∧
    (check_geodataframe dfS1 dfS2 Option.none Option.none OptionFlag.none OptionFlag.none
        OptionFlag.none OptionFlag.false (OptionFlag.list ["b"]) Option.none Option.none []).msgs
      = ["Column check failed.", "Missing columns: [\x27b\x27]"] := by
  constructor <;> decide

/-- C4 counterexample: a completing invocation with `sortby` resolving to the
non-empty, non-missing field set `[a]` after which the caller-owned frames
are NOT unchanged: `sort_values(..., inplace=True)` reorders both in place. -/
theorem C4_counterexample_inplace_sort :
    (check_geodataframe dfU dfU Option.none Option.none OptionFlag.none OptionFlag.none
        OptionFlag.none OptionFlag.false (OptionFlag.list ["a"]) Option.none Option.none []).result
      = .ok 0 ∧
    (check_geodataframe dfU dfU Option.none Option.none OptionFlag.none OptionFlag.none
        OptionFlag.none OptionFlag.false (OptionFlag.list ["a"]) Option.none Option.none []).gdfFinal
      ≠ dfU ∧
    (check_geodataframe dfU dfU Option.none Option.none OptionFlag.none OptionFlag.none
        OptionFlag.none OptionFlag.false (OptionFlag.list ["a"]) Option.none Option.none []).refFinal
      ≠ dfU := by
  refine ⟨?_, ?_, ?_⟩ <;> decide

/-- C5 counterexample: columns differing at rows 0-14 and first agreeing at
row 15.  The rendered run covers exactly the 10-row window, but no ellipsis
marker is appended: the truncation branch of `sample_format` compares the
sample length against the window length and the sample always fills the
window. -/
theorem C5_counterexample_no_ellipsis :
    differences "b" c16a c16b 6
      = "From row 1: [0, 1, 2, 3, 4, 5, 6, 7, 8, 9] != [100, 101, 102, 103, 104, 105, 106, 107, 108, 109]" ∧
    (" ...".data.isSuffixOf (differences "b" c16a c16b 6).data) = false ∧
    ndifferences c16a.values c16b.values 0 10 = 10 ∧
    valEqNaN (c16a.values.getD 15 Value.null) (c16b.values.getD 15 Value.null) = true ∧
    (∀ i, i < 15 → valEqNaN (c16a.values.getD i Value.null) (c16b.values.getD i Value.null) = false) := by
  refine ⟨?_, ?_, ?_, ?_, ?_⟩ <;> decide

/-- C9 counterexample: with `check_types=False` and default `check_order`,
`wrong_ordering` is detected from the resolved `check_order` set, but the
explanation loop walks the lists restricted to the resolved `check_types`
set (here empty), so the defensive fallback text IS emitted — the claimed
unreachable branch is reachable. -/
theorem C9_counterexample_mysterious_ordering :
    (check_geodataframe dfO1 dfO2 Option.none Option.none OptionFlag.none OptionFlag.false
        OptionFlag.none OptionFlag.false OptionFlag.none Option.none Option.none []).result
      = .ok 1 ∧
    "Wrong column ordering: mysterious difference, they appear to be the same!"
      ∈ (check_geodataframe dfO1 dfO2 Option.none Option.none OptionFlag.none OptionFlag.false
           OptionFlag.none OptionFlag.false OptionFlag.none Option.none Option.none []).msgs := by
  constructor <;> decide

/-- C10 counterexample: the helper `method` is a class-own attribute found by
normal lookup, so the forwarding lambda is not involved when it is called:
with no arguments the call raises `TypeError`, not `NotImplementedError`
naming the attempted method — refuting the claim's "every method call (with
any name and arguments)".  `__getattr__` itself is likewise class-own, so
looking it up yields the forwarding machinery rather than raising. -/
theorem C10_counterexample_method_attr :
    GeoPandasComparison_new Bool.false = GeoPandasInstance.notImplemented ∧
    notimpl_getattr (fun _ => Bool.false) "method" = NotImplAttr.classOwn ∧
    notimpl_getattr (fun _ => Bool.false) "__getattr__" = NotImplAttr.classOwn ∧
    notimpl_method_call [] = typeError_method_arity ∧
    (notimpl_method_call []).cls ≠ "NotImplementedError" := by
  refine ⟨?_, ?_, ?_, ?_, ?_⟩ <;> decide

/-- The sample always has exactly as many entries as the window is wide. -/
theorem sample_length (values : List Value) (start stop : Nat) :
    (sample values start stop).length = stop - start := by
  simp [sample]

/-- The ellipsis branch of `sample_format` is dead: the sample always fills
the window, so `len(s) < stop - start` never holds and the rendered string is
always the plain comma-joined sample. -/
theorem sample_format_eq (c : Column) (start stop p : Nat) :
    sample_format c start stop p
      = String.intercalate ", " ((sample c.values start stop).map (formatValue c.dtype p)) := by
  simp [sample_format, sample_length]

/-- A message starting with the row prefix is never the defensive fallback
text of `differences`. -/
theorem from_row_ne_mysterious (s : String) :
    ("From row " ++ s) ≠ "But mysteriously appear to be identical!" := by
  intro h
  have hpre : "From row ".data <+: ("From row " ++ s).data := by
    rw [String.data_append]
    exact List.prefix_append _ _
  rw [h] at hpre
  exact absurd hpre (by decide)

/-- C10 (amended): when geopandas is unavailable, construction yields the
null implementation (construction itself never fails), and calling any
attribute that normal lookup does not find — any name outside the class-own
attribute set of `GeoPandasNotImplemented` and not inherited from `object` —
goes through `__getattr__` and raises `NotImplementedError` whose message
names the attempted method, whatever the arguments.  Names found by normal
lookup behave differently: `method` called bare raises `TypeError` and
looking up `__getattr__` returns the forwarding lambda without raising (see
the counterexample). -/
theorem C10_amended_null_implementation (objAttr : String → Bool)
    (name : String) (args : List String)
    (hco : notimpl_class_attrs.contains name = false)
    (hoa : objAttr name = false) :
    GeoPandasComparison_new Bool.false = GeoPandasInstance.notImplemented ∧
    notimpl_getattr objAttr name = NotImplAttr.forwarding name ∧
    notimpl_lambda_call name args
      = ⟨"NotImplementedError", name ++ ": GeoPandas not available."⟩ := by
  refine ⟨rfl, ?_, rfl⟩
  have hmem : name ∉ notimpl_class_attrs := by simpa using hco
  simp [notimpl_getattr, hmem, hoa]

/-- Witness for C10 (amended) at a concrete method name that normal lookup
does not find. -/
theorem C10_amended_null_implementation_witness :
    GeoPandasComparison_new Bool.false = GeoPandasInstance.notImplemented ∧
    notimpl_getattr (fun _ => Bool.false) "check_geodataframe"
      = NotImplAttr.forwarding "check_geodataframe" ∧
    notimpl_lambda_call "check_geodataframe" []
      = ⟨"NotImplementedError", "check_geodataframe" ++ ": GeoPandas not available."⟩ :=
  C10_amended_null_implementation (fun _ => Bool.false) "check_geodataframe" []
    (by decide) (by decide)

/-- C9 (amended): the difference sampler's defensive fallback is indeed
unreachable for columns of the same dtype and length: whenever such columns
are reported unequal by `Series.equals`, the row scan finds a divergent row
and the message is the `From row ...` rendering.  (The wrong-ordering
fallback of the schema phase, by contrast, is reachable — see the
counterexample — because the explanation loop restricts the column lists to
the resolved `check_types` set while `wrong_ordering` is computed from the
resolved `check_order` set.) -/
theorem C9_amended_sampler_fallback_unreachable (name : String) (c1 c2 : Column)
    (p : Nat) (hdt : c1.dtype = c2.dtype)
    (hlen : c1.values.length = c2.values.length)
    (hne : seriesEquals c1 c2 = false) :
    differences name c1 c2 p ≠ "But mysteriously appear to be identical!" := by
  have hall : ¬ ((c1.values.zip c2.values).all fun pr => valEqNaN pr.1 pr.2) = true := by
    intro hall
    simp [seriesEquals, hdt, hlen, hall] at hne
  have hex : ∃ pr ∈ c1.values.zip c2.values, ¬ valEqNaN pr.1 pr.2 = true := by
    by_contra hc
    push_neg at hc
    exact hall (List.all_eq_true.mpr hc)
  have hfind : firstDiffIndex c1.values c2.values ≠ Option.none := by
    intro hnone
    obtain ⟨pr, hmem, hpr⟩ := hex
    have := (List.findIdx?_eq_none_iff.mp hnone) pr hmem
    simp at this
    exact hpr this
  cases hidx : firstDiffIndex c1.values c2.values with
  | none => exact absurd hidx hfind
  | some i =>
    unfold differences
    rw [hidx]
    simp only [String.append_assoc]
    exact from_row_ne_mysterious _

/-- Witness for C9 (amended): two same-typed one-row columns that differ. -/
theorem C9_amended_sampler_witness :
    differences "w" colW1 colW2 6 ≠ "But mysteriously appear to be identical!" :=
  C9_amended_sampler_fallback_unreachable "w" colW1 colW2 6 rfl rfl (by decide)

/-- When the whole window from `start` is divergent, `ndifferences` runs to
the end of the window. -/
theorem ndifferences_eq_stop (v1 v2 : List Value) (start limit : Nat)
    (h : ∀ i, start ≤ i → i < min (start + limit) v1.length →
      valEqNaN (v1.getD i Value.null) (v2.getD i Value.null) = false) :
    ndifferences v1 v2 start limit = min (start + limit) v1.length := by
  have hfind : (List.range' start (min (start + limit) v1.length - start)).find?
      (fun i => valEqNaN (v1.getD i Value.null) (v2.getD i Value.null)) = Option.none := by
    rw [List.find?_eq_none]
    intro x hx
    rw [List.mem_range'_1] at hx
    have hxlt : x < min (start + limit) v1.length := by
      rcases Nat.le_total start (min (start + limit) v1.length) with hM | hM
      · omega
      · omega
    simp only [h x hx.1 hxlt]
    simp
  simp only [ndifferences, hfind]

/-- C5 (amended): a column pair divergent throughout the 10-row window
starting at its first differing row 0 (in particular one whose first
agreement is at row 15) renders exactly the 10 window values per side, and no
ellipsis marker is appended — the truncation branch of `sample_format` never
fires because the sample always fills the window. -/
theorem C5_amended_window_no_marker (name : String) (c1 c2 : Column) (p : Nat)
    (h10 : 10 ≤ c1.values.length)
    (hlen : c2.values.length = c1.values.length)
    (hd : ∀ i, i < 10 →
      valEqNaN (c1.values.getD i Value.null) (c2.values.getD i Value.null) = false) :
    firstDiffIndex c1.values c2.values = some 0 ∧
    ndifferences c1.values c2.values 0 10 = 10 ∧
    (sample c1.values 0 10).length = 10 ∧
    differences name c1 c2 p
      = "From row " ++ toString (0 + 1) ++ ": ["
        ++ String.intercalate ", " ((sample c1.values 0 10).map (formatValue c1.dtype p))
        ++ "] != ["
        ++ String.intercalate ", " ((sample c2.values 0 10).map (formatValue c2.dtype p))
        ++ "]" := by
  have h1 : c1.values ≠ [] := by
    intro h
    rw [h] at h10
    simp at h10
  have h2 : c2.values ≠ [] := by
    intro h
    rw [h] at hlen
    exact h1 (List.eq_nil_of_length_eq_zero hlen.symm)
  obtain ⟨a, as, ha⟩ := List.exists_cons_of_ne_nil h1
  obtain ⟨b, bs, hb⟩ := List.exists_cons_of_ne_nil h2
  have h0 := hd 0 (by norm_num)
  rw [ha, hb] at h0
  simp only [List.getD_cons_zero] at h0
  have hfirst : firstDiffIndex c1.values c2.values = some 0 := by
    unfold firstDiffIndex
    rw [ha, hb, List.zip_cons_cons, List.findIdx?_cons]
    simp [h0]
  have hmin : min (0 + 10) c1.values.length = 10 := by
    rw [Nat.zero_add]
    exact min_eq_left h10
  have hnd : ndifferences c1.values c2.values 0 10 = 10 := by
    rw [ndifferences_eq_stop, hmin]
    intro i hi0 hilt
    rw [hmin] at hilt
    exact hd i hilt
  refine ⟨hfirst, hnd, ?_, ?_⟩
  · rw [sample_length]
  · simp only [differences, hfirst, hnd, sample_format_eq]

/-- Witness for C5 (amended): the concrete 16-row columns first agreeing at
row 15. -/
theorem C5_amended_window_no_marker_witness :
    firstDiffIndex c16a.values c16b.values = some 0 ∧
    ndifferences c16a.values c16b.values 0 10 = 10 ∧
    (sample c16a.values 0 10).length = 10 ∧
    differences "b" c16a c16b 6
      = "From row " ++ toString (0 + 1) ++ ": ["
        ++ String.intercalate ", " ((sample c16a.values 0 10).map (formatValue c16a.dtype 6))
        ++ "] != ["
        ++ String.intercalate ", " ((sample c16b.values 0 10).map (formatValue c16b.dtype 6))
        ++ "]" :=
  C5_amended_window_no_marker "b" c16a c16b 6 (by decide) (by decide) (by decide)

/-- C4 (amended): the sort is applied IN PLACE to the caller-owned datasets,
not to copies: for every invocation whose schema phase completes (no
exception) and whose `sortby` flag resolves to a truthy field set containing
no missing column, with both per-frame sorts succeeding, the caller-owned
actual and expected frames after the call hold the stable-sorted rows — they
are mutated, not unchanged. -/
theorem C4_amended_inplace_sort (gdf ref_gdf : GeoDataFrame) (ap ep : Option String)
    (cd ct co cec sb : OptionFlag) (cond : Option (GeoDataFrame → List Bool))
    (prec : Option Nat) (ms : List String)
    (mc : List String) (wt : List (String × Dtype × Dtype)) (g1 r1 : GeoDataFrame)
    (hmw : missing_wrong_types gdf ref_gdf (resolve_option_flag ct ref_gdf) = .ok (mc, wt))
    (hcec : resolve_option_flag cec gdf = [])
    (hsb : flagTruthy sb = true)
    (hmiss : mc.any (fun c => (resolve_option_flag sb ref_gdf).contains c) = false)
    (hg : sort_values gdf (resolve_option_flag sb ref_gdf) = .ok g1)
    (hr : sort_values ref_gdf (resolve_option_flag sb ref_gdf) = .ok r1) :
    (check_geodataframe gdf ref_gdf ap ep cd ct co cec sb cond prec ms).gdfFinal = g1 ∧
    (check_geodataframe gdf ref_gdf ap ep cd ct co cec sb cond prec ms).refFinal = r1 := by
  have hmiss2 : ∀ x ∈ mc, x ∉ resolve_option_flag sb ref_gdf := by
    intro x hx hmem
    have hat : mc.any (fun c => (resolve_option_flag sb ref_gdf).contains c) = true :=
      List.any_eq_true.mpr ⟨x, hx, by simpa using hmem⟩
    rw [hmiss] at hat
    exact Bool.false_ne_true hat
  have hss : sort_step gdf ref_gdf sb mc = (g1, r1, Option.none) := by
    simp [sort_step, hsb, hg, hr]
    exact hmiss2
  have hcec2 : (resolve_option_flag cec gdf).isEmpty = true := by
    rw [hcec]
    rfl
  simp only [check_geodataframe]
  rw [hmw]
  simp only [hcec2, Bool.not_true, Bool.false_eq_true, if_false, hss]
  rcases hcs : content_step (applyCondition cond g1) (applyCondition cond r1) cd mc
      (prec.getD 6) ap ep with ⟨cs, cm, ce⟩
  cases ce <;> simp [hcs]

/-- Witness for C4 (amended): the two-row frame sorted on its column. -/
theorem C4_amended_inplace_sort_witness :
    (check_geodataframe dfU dfU Option.none Option.none OptionFlag.none OptionFlag.none
        OptionFlag.none OptionFlag.false (OptionFlag.list ["a"]) Option.none Option.none []).gdfFinal
      = dfUs ∧
    (check_geodataframe dfU dfU Option.none Option.none OptionFlag.none OptionFlag.none
        OptionFlag.none OptionFlag.false (OptionFlag.list ["a"]) Option.none Option.none []).refFinal
      = dfUs :=
  C4_amended_inplace_sort dfU dfU Option.none Option.none OptionFlag.none OptionFlag.none
    OptionFlag.none OptionFlag.false (OptionFlag.list ["a"]) Option.none Option.none []
    [] [] dfUs dfUs (by decide) (by decide) (by decide) (by decide) (by decide) (by decide)

/-- The comparison only appends to the caller-supplied log: the outcome on
log `ms` is the outcome on the empty log with `ms` prefixed to the messages,
and the frames and result do not depend on the incoming log. -/
theorem check_geodataframe_log_append (gdf ref_gdf : GeoDataFrame)
    (ap ep : Option String) (cd ct co cec sb : OptionFlag)
    (cond : Option (GeoDataFrame → List Bool)) (prec : Option Nat)
    (ms : List String) :
    check_geodataframe gdf ref_gdf ap ep cd ct co cec sb cond prec ms
      = { check_geodataframe gdf ref_gdf ap ep cd ct co cec sb cond prec [] with
          msgs := ms ++ (check_geodataframe gdf ref_gdf ap ep cd ct co cec sb cond prec []).msgs } := by
  simp only [check_geodataframe]
  cases hmw : missing_wrong_types gdf ref_gdf (resolve_option_flag ct ref_gdf) with
  | error e => simp
  | ok mw =>
    obtain ⟨mc, wt⟩ := mw
    by_cases hce : (!(resolve_option_flag cec gdf).isEmpty) = true
    · simp [hce]
    · simp only [hce, if_false, Bool.false_eq_true]
      rcases hss : sort_step gdf ref_gdf sb mc with ⟨g1, r1, oe⟩
      cases oe with
      | none =>
        rcases hcs : content_step (applyCondition cond g1) (applyCondition cond r1) cd mc
            (prec.getD 6) ap ep with ⟨cs, cm, ce⟩
        cases ce <;> simp [hss, hcs, List.append_assoc]
      | some e => simp [hss]

/-- `check_parquet_file` likewise only appends to the incoming log. -/
theorem check_parquet_file_log_append (loader : String → Except PyException GeoDataFrame)
    (a e : String) (cd ct co sb : OptionFlag)
    (cond : Option (GeoDataFrame → List Bool)) (prec : Option Nat) (ms : List String) :
    check_parquet_file loader a e cd ct co sb cond prec ms
      = (ms ++ (check_parquet_file loader a e cd ct co sb cond prec []).1,
         (check_parquet_file loader a e cd ct co sb cond prec []).2) := by
  simp only [check_parquet_file]
  cases loader e with
  | error ex => simp
  | ok ref =>
    cases loader a with
    | error ex => simp
    | ok g =>
      dsimp only
      rw [check_geodataframe_log_append]

/-- Characterisation of the batch driver: the total is the sum of the
per-pair failure counts over the zipped path lists, and the final log is the
incoming log followed by each pair's message block in order. -/
theorem check_parquet_files_spec (loader : String → Except PyException GeoDataFrame)
    (aps eps : List String) (cd ct co sb : OptionFlag)
    (cond : Option (GeoDataFrame → List Bool)) (ms : List String) :
    check_parquet_files loader aps eps cd ct co sb cond ms
      = (((aps.zip eps).map (pair_failures loader cd ct co sb cond)).sum,
         ms ++ (aps.zip eps).flatMap (pair_msgs loader cd ct co sb cond)) := by
  have aux : ∀ (l : List (String × String)) (k : Nat) (ms0 : List String),
      l.foldl (fun acc p =>
        match check_parquet_file loader p.1 p.2 cd ct co sb cond Option.none acc.2 with
        | (msgs1, .ok n) => (acc.1 + n, msgs1)
        | (msgs1, .error e) => (acc.1 + 1, msgs1 ++ [batch_error_msg p.1 p.2 e])) (k, ms0)
      = (k + (l.map (pair_failures loader cd ct co sb cond)).sum,
         ms0 ++ l.flatMap (pair_msgs loader cd ct co sb cond)) := by
    intro l
    induction l with
    | nil =>
      intro k ms0
      simp
    | cons p t ih =>
      intro k ms0
      rw [List.foldl_cons, check_parquet_file_log_append]
      rcases hq : check_parquet_file loader p.1 p.2 cd ct co sb cond Option.none []
        with ⟨m0, r0⟩
      cases r0 with
      | ok n =>
        simp only [hq, ih]
        simp [pair_failures, pair_msgs, hq, List.append_assoc, Nat.add_assoc]
      | error ex =>
        simp only [hq, ih]
        simp [pair_failures, pair_msgs, hq, List.append_assoc, Nat.add_assoc]
  unfold check_parquet_files
  rw [aux]
  simp

/-- C7: batch isolation.  For every loader, flag configuration, path lists
and incoming log, if some zipped pair raises (any error, from loading or
comparing), then the batch call still returns the sum of the per-pair
failure counts over ALL pairs (so the remaining pairs are processed), the
raising pair contributes exactly one failure, and the log contains the one
error message naming both paths and the error class and description. -/
theorem C7_batch_isolation (loader : String → Except PyException GeoDataFrame)
    (aps eps : List String) (cd ct co sb : OptionFlag)
    (cond : Option (GeoDataFrame → List Bool)) (ms : List String)
    (p : String × String) (e : PyException)
    (hp : p ∈ aps.zip eps)
    (he : (check_parquet_file loader p.1 p.2 cd ct co sb cond Option.none []).2 = .error e) :
    (check_parquet_files loader aps eps cd ct co sb cond ms).1
      = ((aps.zip eps).map (pair_failures loader cd ct co sb cond)).sum ∧
    pair_failures loader cd ct co sb cond p = 1 ∧
    batch_error_msg p.1 p.2 e ∈ (check_parquet_files loader aps eps cd ct co sb cond ms).2 := by
  have hpm : batch_error_msg p.1 p.2 e ∈ pair_msgs loader cd ct co sb cond p := by
    unfold pair_msgs
    rcases hq : check_parquet_file loader p.1 p.2 cd ct co sb cond Option.none []
      with ⟨m0, r0⟩
    rw [hq] at he
    simp only at he
    rw [he]
    simp
  refine ⟨?_, ?_, ?_⟩
  · rw [check_parquet_files_spec]
  · unfold pair_failures
    rw [he]
  · rw [check_parquet_files_spec]
    simp only [List.mem_append]
    right
    exact List.mem_flatMap.mpr ⟨p, hp, hpm⟩

/-- Witness for C7: a single pair whose loader raises `OSError`. -/
theorem C7_batch_isolation_witness :
    (check_parquet_files loaderW ["a1"] ["e1"] OptionFlag.none OptionFlag.none
        OptionFlag.none OptionFlag.none Option.none []).1
      = ((["a1"].zip ["e1"]).map
          (pair_failures loaderW OptionFlag.none OptionFlag.none OptionFlag.none
            OptionFlag.none Option.none)).sum ∧
    pair_failures loaderW OptionFlag.none OptionFlag.none OptionFlag.none OptionFlag.none
      Option.none ("a1", "e1") = 1 ∧
    batch_error_msg "a1" "e1" ⟨"OSError", "unreadable file"⟩
      ∈ (check_parquet_files loaderW ["a1"] ["e1"] OptionFlag.none OptionFlag.none
          OptionFlag.none OptionFlag.none Option.none []).2 :=
  C7_batch_isolation loaderW ["a1"] ["e1"] OptionFlag.none OptionFlag.none OptionFlag.none
    OptionFlag.none Option.none [] ("a1", "e1") ⟨"OSError", "unreadable file"⟩
    (by decide) (by rfl)

end Tdda
